import Mathlib

/-!
Shallow embedding of `packages/cli/src/config/firstRunSetup.ts` (qwen-code).

The file under study prompts an interactive terminal user for OpenAI API
settings on first launch and persists them to a user-scoped settings store.
We model standard input as a list of lines, the prompting step as a pure
function returning an `Except` together with effect-tracking fields
(questions asked, stdout lines, whether the readline interface was closed),
and the top-level handler as a function returning the list of setter calls,
stdout, stderr and the process exit code.
-/

namespace FirstRunSetup

/-- `FirstRunConfig` from the source: three string fields. -/
structure FirstRunConfig where
  openaiApiKey : String
  openaiBaseUrl : String
  openaiModel : String
deriving Repr, DecidableEq

/-- JavaScript truthiness of an optional string: `undefined` and `""` are
falsy, every other string is truthy.  Models `!userSettings.openaiApiKey`
and `!process.env.OPENAI_API_KEY`. -/
def truthy : Option String → Bool
  | none => false
  | some s => s ≠ ""

/-- `isFirstRun` from the source:
`!userSettings.openaiApiKey && !process.env.OPENAI_API_KEY`, with the two
environment reads made explicit inputs. -/
def isFirstRun (storedKey envKey : Option String) : Bool :=
  !truthy storedKey && !truthy envKey

/-- JavaScript `String.prototype.trim`: removes leading and trailing
whitespace from a string. -/
def jsTrim (s : String) : String :=
  String.mk (((s.data.dropWhile Char.isWhitespace).reverse.dropWhile Char.isWhitespace).reverse)

/-- `askQuestion` from the source: reads one line of input and resolves with
`answer.trim()`.  The input stream is a list of lines; the function returns
the trimmed answer and the remaining stream. -/
def askQuestion (input : List String) : String × List String :=
  match input with
  | [] => ("", [])
  | a :: rest => (jsTrim a, rest)

/-- JavaScript `a || b` on strings: the empty string is falsy. -/
def jsOr (s d : String) : String :=
  if s = "" then d else s

def defaultBaseUrl : String := "https://api.openai.com/v1"

def defaultModel : String := "gpt-4"

def bannerLines : List String :=
  ["\n🚀 Welcome to Qwen Code!", "Please configure your OpenAI API settings:\n"]

def apiKeyQuestion : String := "Enter your OpenAI API Key: "

def baseUrlQuestion : String :=
  "Enter OpenAI Base URL (press Enter for default: https://api.openai.com/v1): "

def modelQuestion : String := "Enter OpenAI Model (press Enter for default: gpt-4): "

def questionTexts : List String := [apiKeyQuestion, baseUrlQuestion, modelQuestion]

/-- The `try` body of `promptForOpenAIConfig`: asks up to three questions in
sequence; if the trimmed API-key answer is empty it throws
`Error('OpenAI API Key is required')` before asking anything further,
otherwise it returns the config with `||`-defaults applied to the base URL
and the model.  Returns the result together with the number of questions
asked. -/
def promptBody (input : List String) : Except String FirstRunConfig × Nat :=
  let (openaiApiKey, rest1) := askQuestion input
  if openaiApiKey = "" then
    (Except.error "OpenAI API Key is required", 1)
  else
    let (openaiBaseUrl, rest2) := askQuestion rest1
    let (openaiModel, _rest3) := askQuestion rest2
    (Except.ok
      { openaiApiKey := openaiApiKey
        openaiBaseUrl := jsOr openaiBaseUrl defaultBaseUrl
        openaiModel := jsOr openaiModel defaultModel }, 3)

deriving instance DecidableEq for Except

/-- Observable outcome of `promptForOpenAIConfig`: the returned config or the
thrown error message, the number of questions asked, the stdout lines
produced, and whether the readline interface was closed on exit. -/
structure PromptResult where
  result : Except String FirstRunConfig
  questionsAsked : Nat
  stdout : List String
  rlClosed : Bool
deriving Repr, DecidableEq

/-- `promptForOpenAIConfig` from the source: creates the readline interface,
prints the banner, runs the `try` body, and — mirroring the `finally`
block — closes the readline interface on every exit path.  The stdout lines
are the banner followed by the prompts of the questions actually asked. -/
def promptForOpenAIConfig (input : List String) : PromptResult :=
  let body := promptBody input
  { result := body.1
    questionsAsked := body.2
    stdout := bannerLines ++ questionTexts.take body.2
    rlClosed := true }

/-- `SettingScope` from `settings.js` (only `User` is used by this flow). -/
inductive SettingScope where
  | User
  | Workspace
deriving Repr, DecidableEq

/-- One call to `settings.setValue(scope, key, value)`. -/
structure SetCall where
  scope : SettingScope
  key : String
  value : String
deriving Repr, DecidableEq

/-- Observable outcome of `handleFirstRunSetup`: the setter calls made on the
settings store (in order), stdout and stderr lines, the explicit exit code
(`some 1` on `process.exit(1)`, `none` otherwise), and the number of
questions asked. -/
structure RunResult where
  setCalls : List SetCall
  stdout : List String
  stderr : List String
  exitCode : Option Nat
  questionsAsked : Nat
deriving Repr, DecidableEq

def successLines (path : String) : List String :=
  ["\n✅ Configuration saved successfully!", "Settings saved to: " ++ path ++ "\n"]

def failureLine (e : String) : String :=
  "\n❌ Configuration setup failed: " ++ e

/-- `handleFirstRunSetup` from the source.  `storedKey` is the user-scope
`openaiApiKey` setting, `envKey` is `process.env.OPENAI_API_KEY`, `userPath`
is `settings.user.path`, and `input` is the stdin line stream. -/
def handleFirstRunSetup (storedKey envKey : Option String) (userPath : String)
    (input : List String) : RunResult :=
  if !isFirstRun storedKey envKey then
    { setCalls := [], stdout := [], stderr := [], exitCode := none, questionsAsked := 0 }
  else
    let pr := promptForOpenAIConfig input
    match pr.result with
    | Except.ok config =>
      { setCalls :=
          [ { scope := SettingScope.User, key := "openaiApiKey", value := config.openaiApiKey },
            { scope := SettingScope.User, key := "openaiBaseUrl", value := config.openaiBaseUrl },
            { scope := SettingScope.User, key := "openaiModel", value := config.openaiModel } ]
        stdout := pr.stdout ++ successLines userPath
        stderr := []
        exitCode := none
        questionsAsked := pr.questionsAsked }
    | Except.error e =>
      { setCalls := []
        stdout := pr.stdout
        stderr := [failureLine e]
        exitCode := some 1
        questionsAsked := pr.questionsAsked }

/-! ## Helper lemmas -/

theorem prompt_result_eq (input : List String) :
    (promptForOpenAIConfig input).result = (promptBody input).1 := rfl

theorem prompt_questions_eq (input : List String) :
    (promptForOpenAIConfig input).questionsAsked = (promptBody input).2 := rfl

theorem promptBody_empty (input : List String) (h : (askQuestion input).1 = "") :
    promptBody input = (Except.error "OpenAI API Key is required", 1) := by
  cases input <;> simp_all [promptBody, askQuestion]

theorem promptBody_nonempty (input : List String) (h : (askQuestion input).1 ≠ "") :
    promptBody input =
      (Except.ok
        { openaiApiKey := (askQuestion input).1
          openaiBaseUrl := jsOr (askQuestion (askQuestion input).2).1 defaultBaseUrl
          openaiModel :=
            jsOr (askQuestion (askQuestion (askQuestion input).2).2).1 defaultModel },
       3) := by
  cases input <;> simp_all [promptBody, askQuestion]

theorem jsTrim_eq_empty_of_whitespace (s : String) (h : ∀ c ∈ s.data, c.isWhitespace) :
    jsTrim s = "" := by
  have hd : s.data.dropWhile Char.isWhitespace = [] :=
    List.dropWhile_eq_nil_iff.mpr h
  simp [jsTrim, hd]

/-! ## Claim theorems -/

/-- C1 (corrected, counterexample): at the concrete input `[""]` the flow
fails, but the error message is `"OpenAI API Key is required"`, not
`"API key is required"` as the claim states. -/
theorem C1_counterexample :
    (promptForOpenAIConfig [""]).result = Except.error "OpenAI API Key is required" ∧
    (promptForOpenAIConfig [""]).result ≠ Except.error "API key is required" := by
  decide

/-- C1 (amended): if the trimmed answer to the first question is empty,
`promptForOpenAIConfig` fails immediately with the error message
`"OpenAI API Key is required"` and asks no further questions (exactly one
question asked); and every successfully returned config has a non-empty
`openaiApiKey` field. -/
theorem C1_api_key_required (input : List String) :
    ((askQuestion input).1 = "" →
      (promptForOpenAIConfig input).result = Except.error "OpenAI API Key is required" ∧
      (promptForOpenAIConfig input).questionsAsked = 1) ∧
    ∀ cfg : FirstRunConfig,
      (promptForOpenAIConfig input).result = Except.ok cfg → cfg.openaiApiKey ≠ "" := by
  constructor
  · intro h
    rw [prompt_result_eq, prompt_questions_eq, promptBody_empty input h]
    exact ⟨rfl, rfl⟩
  · intro cfg hcfg
    by_cases h : (askQuestion input).1 = ""
    · rw [prompt_result_eq, promptBody_empty input h] at hcfg
      exact absurd hcfg (by simp)
    · rw [prompt_result_eq, promptBody_nonempty input h] at hcfg
      have : cfg.openaiApiKey = (askQuestion input).1 := by
        cases hcfg
        rfl
      rw [this]
      exact h

/-- C1 witness: concrete instances of both parts of `C1_api_key_required`. -/
theorem C1_api_key_required_witness :
    ((promptForOpenAIConfig ["  "]).result = Except.error "OpenAI API Key is required" ∧
     (promptForOpenAIConfig ["  "]).questionsAsked = 1) ∧
    FirstRunConfig.openaiApiKey ⟨"k", defaultBaseUrl, defaultModel⟩ ≠ "" :=
  ⟨(C1_api_key_required ["  "]).1 (by decide),
   (C1_api_key_required ["k"]).2 ⟨"k", defaultBaseUrl, defaultModel⟩ (by decide)⟩

/-- C2: `isFirstRun` (the spec's `shouldRun`) returns true iff both the
stored key and the environment key are absent or empty; as a Lean function
of its two explicit arguments it is pure by construction. -/
theorem C2_shouldRun_iff (storedKey envKey : Option String) :
    isFirstRun storedKey envKey = true ↔
      (storedKey = none ∨ storedKey = some "") ∧
      (envKey = none ∨ envKey = some "") := by
  cases storedKey <;> cases envKey <;> simp [isFirstRun, truthy]

/-- C3: for any three input lines whose first trimmed answer is non-empty,
`promptForOpenAIConfig` substitutes `https://api.openai.com/v1` when the
trimmed base-URL answer is empty and `gpt-4` when the trimmed model answer
is empty; moreover the two concrete input sequences of the claim produce
exactly the configs it states. -/
theorem C3_defaults (k b m : String) (hk : jsTrim k ≠ "") :
    (promptForOpenAIConfig [k, b, m]).result =
      Except.ok
        { openaiApiKey := jsTrim k
          openaiBaseUrl := if jsTrim b = "" then "https://api.openai.com/v1" else jsTrim b
          openaiModel := if jsTrim m = "" then "gpt-4" else jsTrim m } ∧
    (promptForOpenAIConfig ["sk-test", "", ""]).result =
      Except.ok
        { openaiApiKey := "sk-test"
          openaiBaseUrl := "https://api.openai.com/v1"
          openaiModel := "gpt-4" } ∧
    (promptForOpenAIConfig ["sk-test", "https://custom/v1", "custom-model"]).result =
      Except.ok
        { openaiApiKey := "sk-test"
          openaiBaseUrl := "https://custom/v1"
          openaiModel := "custom-model" } := by
  refine ⟨?_, by decide, by decide⟩
  rw [prompt_result_eq, promptBody_nonempty [k, b, m] (by simpa [askQuestion] using hk)]
  simp [askQuestion, jsOr, defaultBaseUrl, defaultModel]

/-- C3 witness: the general part of `C3_defaults` at a concrete input. -/
theorem C3_defaults_witness :
    jsTrim "sk-test" ≠ "" ∧
    (promptForOpenAIConfig ["sk-test", "", ""]).result =
      Except.ok
        { openaiApiKey := "sk-test"
          openaiBaseUrl := "https://api.openai.com/v1"
          openaiModel := "gpt-4" } :=
  ⟨by decide, (C3_defaults "sk-test" "" "" (by decide)).2.1⟩

/-- C4: on every successful setup, `handleFirstRunSetup` performs exactly
three setter calls — API key, base URL, model, in that order, each into the
user scope under the fixed key names — and then prints a success message
that includes the store's user-scope file path. -/
theorem C4_success_writes (storedKey envKey : Option String) (path : String)
    (input : List String) (cfg : FirstRunConfig)
    (hrun : isFirstRun storedKey envKey = true)
    (hok : (promptForOpenAIConfig input).result = Except.ok cfg) :
    (handleFirstRunSetup storedKey envKey path input).setCalls =
      [ { scope := SettingScope.User, key := "openaiApiKey", value := cfg.openaiApiKey },
        { scope := SettingScope.User, key := "openaiBaseUrl", value := cfg.openaiBaseUrl },
        { scope := SettingScope.User, key := "openaiModel", value := cfg.openaiModel } ] ∧
    (handleFirstRunSetup storedKey envKey path input).setCalls.length = 3 ∧
    (handleFirstRunSetup storedKey envKey path input).stdout =
      (promptForOpenAIConfig input).stdout ++
        ["\n✅ Configuration saved successfully!", "Settings saved to: " ++ path ++ "\n"] := by
  simp [handleFirstRunSetup, hrun, hok, successLines]

/-- C4 witness: `C4_success_writes` at a concrete run. -/
theorem C4_success_writes_witness :
    isFirstRun none none = true ∧
    (handleFirstRunSetup none none "p" ["k", "", ""]).setCalls =
      [ { scope := SettingScope.User, key := "openaiApiKey", value := "k" },
        { scope := SettingScope.User, key := "openaiBaseUrl",
          value := "https://api.openai.com/v1" },
        { scope := SettingScope.User, key := "openaiModel", value := "gpt-4" } ] :=
  ⟨by decide,
   (C4_success_writes none none "p" ["k", "", ""]
      ⟨"k", "https://api.openai.com/v1", "gpt-4"⟩ (by decide) (by decide)).1⟩

/-- C5: on every failing setup (any error from the prompting step), the
handler makes no setter call, prints an error message to standard error, and
exits the process with status 1. -/
theorem C5_failure_no_writes (storedKey envKey : Option String) (path : String)
    (input : List String) (e : String)
    (hrun : isFirstRun storedKey envKey = true)
    (herr : (promptForOpenAIConfig input).result = Except.error e) :
    (handleFirstRunSetup storedKey envKey path input).setCalls = [] ∧
    (handleFirstRunSetup storedKey envKey path input).stderr =
      ["\n❌ Configuration setup failed: " ++ e] ∧
    (handleFirstRunSetup storedKey envKey path input).exitCode = some 1 := by
  simp [handleFirstRunSetup, hrun, herr, failureLine]

/-- C5 witness: `C5_failure_no_writes` at the empty-API-key run. -/
theorem C5_failure_no_writes_witness :
    (handleFirstRunSetup none none "p" [""]).setCalls = [] ∧
    (handleFirstRunSetup none none "p" [""]).stderr =
      ["\n❌ Configuration setup failed: " ++ "OpenAI API Key is required"] ∧
    (handleFirstRunSetup none none "p" [""]).exitCode = some 1 :=
  C5_failure_no_writes none none "p" [""] "OpenAI API Key is required"
    (by decide) (by decide)

/-- C6: whenever `isFirstRun` is false, the handler returns immediately:
no setter calls, no stdout, no stderr, no exit call, no questions asked. -/
theorem C6_skip (storedKey envKey : Option String) (path : String) (input : List String)
    (h : isFirstRun storedKey envKey = false) :
    handleFirstRunSetup storedKey envKey path input =
      { setCalls := [], stdout := [], stderr := [], exitCode := none,
        questionsAsked := 0 } := by
  simp [handleFirstRunSetup, h]

/-- C6 witness: `C6_skip` with a stored key present. -/
theorem C6_skip_witness :
    isFirstRun (some "existing") none = false ∧
    handleFirstRunSetup (some "existing") none "p" ["x", "y", "z"] =
      { setCalls := [], stdout := [], stderr := [], exitCode := none,
        questionsAsked := 0 } :=
  ⟨by decide, C6_skip (some "existing") none "p" ["x", "y", "z"] (by decide)⟩

/-- C7: on every exit path of `promptForOpenAIConfig` — config returned or
error propagated — the readline interface is closed (the `finally` block of
the source runs unconditionally). -/
theorem C7_rl_closed (input : List String) :
    (promptForOpenAIConfig input).rlClosed = true := rfl

/-- C8: every answer is trimmed before any use: for any three input lines,
the emptiness check, the default substitution and the returned config fields
all operate on the trimmed input; in particular `"  sk-test  "` yields
`"sk-test"`. -/
theorem C8_trimmed_before_use (k b m : String) :
    (promptForOpenAIConfig [k, b, m]).result =
      (if jsTrim k = "" then Except.error "OpenAI API Key is required"
       else Except.ok
         { openaiApiKey := jsTrim k
           openaiBaseUrl := jsOr (jsTrim b) defaultBaseUrl
           openaiModel := jsOr (jsTrim m) defaultModel }) ∧
    jsTrim "  sk-test  " = "sk-test" := by
  refine ⟨?_, by decide⟩
  by_cases h : jsTrim k = ""
  · rw [prompt_result_eq, promptBody_empty [k, b, m] (by simpa [askQuestion] using h)]
    simp [h]
  · rw [prompt_result_eq, promptBody_nonempty [k, b, m] (by simpa [askQuestion] using h)]
    simp [askQuestion, h]

/-- C9: an answer consisting only of whitespace is treated exactly like an
empty answer: a whitespace-only API key triggers the validation failure, and
whitespace-only base-URL and model answers yield the fixed defaults. -/
theorem C9_whitespace_like_empty (k k2 b m : String)
    (hk : ∀ c ∈ k.data, c.isWhitespace)
    (hk2 : jsTrim k2 ≠ "")
    (hb : ∀ c ∈ b.data, c.isWhitespace)
    (hm : ∀ c ∈ m.data, c.isWhitespace) :
    (promptForOpenAIConfig [k, b, m]).result =
      Except.error "OpenAI API Key is required" ∧
    (promptForOpenAIConfig [k2, b, m]).result =
      Except.ok
        { openaiApiKey := jsTrim k2
          openaiBaseUrl := defaultBaseUrl
          openaiModel := defaultModel } := by
  have hkz : jsTrim k = "" := jsTrim_eq_empty_of_whitespace k hk
  have hbz : jsTrim b = "" := jsTrim_eq_empty_of_whitespace b hb
  have hmz : jsTrim m = "" := jsTrim_eq_empty_of_whitespace m hm
  constructor
  · rw [prompt_result_eq, promptBody_empty [k, b, m] (by simpa [askQuestion] using hkz)]
  · rw [prompt_result_eq, promptBody_nonempty [k2, b, m] (by simpa [askQuestion] using hk2)]
    simp [askQuestion, jsOr, hbz, hmz]

/-- C9 witness: `C9_whitespace_like_empty` on concrete whitespace-only
inputs. -/
theorem C9_whitespace_like_empty_witness :
    (promptForOpenAIConfig ["  \t", " ", "\t "]).result =
      Except.error "OpenAI API Key is required" ∧
    (promptForOpenAIConfig ["sk", " ", "\t "]).result =
      Except.ok
        { openaiApiKey := "sk"
          openaiBaseUrl := defaultBaseUrl
          openaiModel := defaultModel } := by
  have h := C9_whitespace_like_empty "  \t" "sk" " " "\t "
    (by decide) (by decide) (by decide) (by decide)
  exact ⟨h.1, h.2⟩

/-- C10: every setter call the handler ever performs targets the user scope
and one of exactly the three fixed keys, in the fixed order API key, base
URL, model; no other scope or key is ever written. -/
theorem C10_writes_user_scope_only (storedKey envKey : Option String) (path : String)
    (input : List String) :
    (handleFirstRunSetup storedKey envKey path input).setCalls = [] ∨
    ∃ cfg : FirstRunConfig,
      (handleFirstRunSetup storedKey envKey path input).setCalls =
        [ { scope := SettingScope.User, key := "openaiApiKey", value := cfg.openaiApiKey },
          { scope := SettingScope.User, key := "openaiBaseUrl", value := cfg.openaiBaseUrl },
          { scope := SettingScope.User, key := "openaiModel", value := cfg.openaiModel } ] := by
  by_cases h : isFirstRun storedKey envKey = true
  · cases hres : (promptForOpenAIConfig input).result with
    | error e =>
      left
      simp [handleFirstRunSetup, h, hres]
    | ok cfg =>
      right
      exact ⟨cfg, by simp [handleFirstRunSetup, h, hres]⟩
  · left
    simp [handleFirstRunSetup, Bool.not_eq_true _ ▸ h]

end FirstRunSetup
